import Mathlib

/-!
Verification development for the `logos` client toolkit (python sources).

The Python modules under `src/python/` are shallowly embedded here:

* Python values that travel through snapshots (`dict`/`list`/`int`/`str`/
  `bytes`/`bool`/`None`) are the inductive type `PyData`.
* Python exceptions raised by the embedded code are the inductive `PyErr`
  (`LogosSerializationError`, `LogosPermissionError`, `LogosStatusError`,
  plus the builtin `ValueError`, `AttributeError`, `NameError`, `TypeError`).
* Stateful methods become functions `args → State → Option PyErr × State`:
  Python mutates objects in place, so a raised exception still returns the
  (possibly partially mutated) state together with `some err`.
* `now()` (`functiontools.now`, a millisecond wall-clock read) becomes an
  explicit parameter `t : Nat`; the wall clock is assumed positive and
  non-decreasing where a theorem needs it.
* Class-level singleton state (`Tags`, `Texts`, the `Client` queue) becomes
  an explicit state value passed to the embedded classmethods.
-/

/-- Python runtime values as they appear in `logos` snapshots: ints, strings,
booleans, byte strings, lists, dicts (association lists of key/value pairs,
keys themselves Python values) and `None`. -/
inductive PyData where
  | int (n : Int)
  | str (s : String)
  | bool (b : Bool)
  | bytes (bs : List Nat)
  | list (xs : List PyData)
  | dict (entries : List (PyData × PyData))
  | none

/-- Exceptions raised by the embedded code: the three `error.py` classes and
the Python builtins that the sources can raise. -/
inductive PyErr where
  | serializationError
  | permissionError
  | statusError
  | valueError
  | attributeError
  | nameError
  | typeError
deriving DecidableEq, Repr

/-- Lookup of a string key in a Python dict (`data[key]` where `key` is a
`str`): the first entry whose key is the string `key`. -/
def dictLookupStr : List (PyData × PyData) → String → Option PyData
  | [], _ => Option.none
  | (PyData.str s, v) :: rest, key =>
      if s = key then some v else dictLookupStr rest key
  | _ :: rest, key => dictLookupStr rest key

/-- Replace the value of a string key in a Python dict (`data[key] = v`),
appending the entry when the key is absent. -/
def dictSetStr : List (PyData × PyData) → String → PyData → List (PyData × PyData)
  | [], key, v => [(PyData.str key, v)]
  | (PyData.str s, w) :: rest, key, v =>
      if s = key then (PyData.str s, v) :: rest
      else (PyData.str s, w) :: dictSetStr rest key v
  | other :: rest, key, v => other :: dictSetStr rest key v

/-- Membership test `new_tag in xs` for a Python list against an int
(`int.__eq__`; a Python `bool` equals its numeric value). -/
def pyListContainsInt (xs : List PyData) (n : Int) : Bool :=
  xs.any fun x =>
    match x with
    | PyData.int m => m == n
    | PyData.bool b => (if b then (1 : Int) else 0) == n
    | _ => false

/-- Shallow copy `x.copy()`: defined for Python lists and dicts, an
`AttributeError` (modelled as `Option.none`) for every other value. -/
def pyCopy : PyData → Option PyData
  | PyData.list xs => some (PyData.list xs)
  | PyData.dict es => some (PyData.dict es)
  | _ => Option.none

/-- Embeds `functiontools.check_data`: `some serializationError` when `data`
is not a dict or one of `keys` is missing, `Option.none` (success) otherwise.
(`key in data.keys()` succeeds exactly when `dictLookupStr` finds the key.) -/
def check_data (data : PyData) (keys : List String) : Option PyErr :=
  match data with
  | PyData.dict entries =>
      if keys.all fun k => (dictLookupStr entries k).isSome then Option.none
      else some PyErr.serializationError
  | _ => some PyErr.serializationError

/-- Embeds `functiontools.check_switch`: `panel // switch % 2 == 1` with
Python's floor division (`Int.fdiv`) and floor modulo (`Int.fmod`). -/
def check_switch (panel switch : Int) : Bool :=
  (panel.fdiv switch).fmod 2 == 1

/-- Access-mode constants of `security.LogosPermissionTypes`. -/
def LogosPermissionTypes.NO_PERMISSION : Int := 0

/-- Access-mode constant `READ = 1`. -/
def LogosPermissionTypes.READ : Int := 1

/-- Access-mode constant `WRITE = 2`. -/
def LogosPermissionTypes.WRITE : Int := 2

/-- Access-mode constant `ADMINISTRATE = 4`. -/
def LogosPermissionTypes.ADMINISTRATE : Int := 4

/-- State owned by `datamodel.LogosUpdateable`: the protected
`__last_update` timestamp and `__version`, both initialised to `0`. -/
structure UpdState where
  last_update : Nat
  version : Int
deriving DecidableEq, Repr

/-- A freshly constructed `LogosUpdateable` (`__init__`). -/
def UpdState.fresh : UpdState := ⟨0, 0⟩

/-- Embeds `LogosUpdateable.on_data_received`: stores `now()` (the explicit
clock value `t`) and the received version; the `data` payload itself is kept
only by subclasses. -/
def UpdState.on_data_received (t : Nat) (v : Int) (_s : UpdState) : UpdState :=
  ⟨t, v⟩

/-- Embeds the `LogosUpdateable.is_ready` property:
`self.__last_update > 0`. -/
def UpdState.is_ready (s : UpdState) : Bool :=
  decide (0 < s.last_update)

/-- Apply a whole sequence of snapshot receptions, each a pair of a clock
value and a version, in order. -/
def UpdState.applyAll : List (Nat × Int) → UpdState → UpdState
  | [], s => s
  | (t, v) :: rest, s => UpdState.applyAll rest (UpdState.on_data_received t v s)

/-- State of `attributes.LogosEditableAttributes`, a concrete
`LogosLocallyCangeable` entity: the inherited `__last_update`, `__version`
and `__is_changed` plus the payload `__tags` (a Python list) and
`__descriptions` (a Python dict). -/
structure EAState where
  last_update : Nat
  version : Int
  is_changed : Bool
  tags : PyData
  descriptions : PyData

/-- A freshly constructed `LogosEditableAttributes()` (no initial data). -/
def EAState.fresh : EAState :=
  ⟨0, 0, false, PyData.list [], PyData.dict []⟩

/-- Embeds `LogosEditableAttributes.on_data_received` faithfully to its
statement order: first `super().on_data_received(data, version)` — which is
`LogosLocallyCangeable.on_data_received` (set `__is_changed = False`) on top
of `LogosUpdateable.on_data_received` (set `__last_update = now()`,
`__version = version`) — then `check_data(data, ['tags', 'descriptions'])`
(the `serializationError` branches), then `self.__tags = data['tags'].copy()`
and `self.__descriptions = data['descriptions'].copy()` (the `pyCopy`
branches; a copy on a non-list/dict value is Python's `AttributeError`). -/
def EAState.on_data_received (t : Nat) (data : PyData) (v : Int) (s : EAState) :
    Option PyErr × EAState :=
  let s1 := { s with last_update := t, version := v, is_changed := false }
  match data with
  | PyData.dict entries =>
    match dictLookupStr entries "tags", dictLookupStr entries "descriptions" with
    | some tv, some dv =>
      match pyCopy tv with
      | some tv2 =>
        match pyCopy dv with
        | some dv2 => (Option.none, { s1 with tags := tv2, descriptions := dv2 })
        | Option.none => (some PyErr.attributeError, { s1 with tags := tv2 })
      | Option.none => (some PyErr.attributeError, s1)
    | _, _ => (some PyErr.serializationError, s1)
  | _ => (some PyErr.serializationError, s1)

/-- Class-level state of the `attributes.Tags` singleton: the inherited
timestamp/version pair and the `__tag_ids` list. -/
structure TagsState where
  last_update : Nat
  version : Int
  tag_ids : List Int
deriving DecidableEq, Repr

/-- Embeds `Tags.available`: `tag_id in cls.__tag_ids`. -/
def Tags.available (st : TagsState) (tag_id : Int) : Bool :=
  st.tag_ids.contains tag_id

/-- Embeds `LogosEditableAttributes.add_tag` exactly as written: duplicate
check (`ValueError`), registry check (`LogosPermissionError`), then
`self.__tags.append(new_tag)` followed by `super().om_update()` — a method
that does not exist anywhere in the class hierarchy (the parent defines
`on_update`), so Python raises `AttributeError` after the append, and
`__is_changed` is never set. A non-list `__tags` would make the membership
test itself a `TypeError`. -/
def EAState.add_tag (reg : TagsState) (new_tag : Int) (s : EAState) :
    Option PyErr × EAState :=
  match s.tags with
  | PyData.list xs =>
    if pyListContainsInt xs new_tag then
      (some PyErr.valueError, s)
    else if !Tags.available reg new_tag then
      (some PyErr.permissionError, s)
    else
      (some PyErr.attributeError,
        { s with tags := PyData.list (xs ++ [PyData.int new_tag]) })
  | _ => (some PyErr.typeError, s)

/-- State of `attributes.LogosAttributes` (the read-only attribute set used
inside flow objects): inherited timestamp/version plus `__tags` and
`__descriptions`. -/
structure AttrState where
  last_update : Nat
  version : Int
  tags : PyData
  descriptions : PyData

/-- Embeds `LogosAttributes.on_data_received`: same statement order as the
editable variant (`super()` bookkeeping first, then `check_data`, then the
two copies), without a dirty flag. -/
def AttrState.on_data_received (t : Nat) (data : PyData) (v : Int) (s : AttrState) :
    Option PyErr × AttrState :=
  let s1 := { s with last_update := t, version := v }
  match data with
  | PyData.dict entries =>
    match dictLookupStr entries "tags", dictLookupStr entries "descriptions" with
    | some tv, some dv =>
      match pyCopy tv with
      | some tv2 =>
        match pyCopy dv with
        | some dv2 => (Option.none, { s1 with tags := tv2, descriptions := dv2 })
        | Option.none => (some PyErr.attributeError, { s1 with tags := tv2 })
      | Option.none => (some PyErr.attributeError, s1)
    | _, _ => (some PyErr.serializationError, s1)
  | _ => (some PyErr.serializationError, s1)

/-- Embeds the `LogosAttributes.__init__(data, version)` constructor: start
from the empty state and, when `data is not None`, run `on_data_received`
(with version defaulting to `0` at the call sites in `flow.py`); a raised
exception propagates out of the constructor. -/
def LogosAttributes.from_data (t : Nat) (data : Option PyData) (v : Int) :
    Option PyErr × AttrState :=
  let fresh : AttrState := ⟨0, 0, PyData.list [], PyData.dict []⟩
  match data with
  | Option.none => (Option.none, fresh)
  | some d => AttrState.on_data_received t d v fresh

/-- State of `flow.LogosLogContainer`, the dict subclass that freezes after
construction: its entries and the private `__in_init` flag. -/
structure LogContainer where
  entries : List (PyData × PyData)
  in_init : Bool

/-- Embeds `LogosLogContainer.__init__(logs)` exactly as written: with
`logs=None` or an empty dict the loop body never runs and `__in_init` is
reset to `False`; for a NONEMPTY dict the first iteration evaluates
`Log(value)` — a name that does not exist in `flow.py` (the class is named
`LogosLog`) — so Python raises `NameError` with the object still mid-init
(`__in_init` still `True`, no entry stored); a non-dict argument has no
`.items()` and raises `AttributeError` at the same point. -/
def LogContainer.init (logs : PyData) : Option PyErr × LogContainer :=
  match logs with
  | PyData.none => (Option.none, ⟨[], false⟩)
  | PyData.dict [] => (Option.none, ⟨[], false⟩)
  | PyData.dict (_ :: _) => (some PyErr.nameError, ⟨[], true⟩)
  | _ => (some PyErr.attributeError, ⟨[], true⟩)

/-- Embeds `LogosLogContainer.__setitem__`: after initialisation
(`__in_init` is `False`) every key assignment raises
`LogosPermissionError` and stores nothing; during `__init__` it behaves as
the underlying dict assignment. -/
def LogContainer.setitem (key value : PyData) (c : LogContainer) :
    Option PyErr × LogContainer :=
  if c.in_init then
    match key with
    | PyData.str k => (Option.none, ⟨dictSetStr c.entries k value, true⟩)
    | other => (Option.none, ⟨c.entries ++ [(other, value)], true⟩)
  else
    (some PyErr.permissionError, c)

/-- State of `flow.LogosChannel`: the `LogosFlowObject` fields (`__id`,
`__name`, `__access_mode`, `__attributes`) over the `LogosUpdateable`
bookkeeping, plus the channel's `__logs` container. -/
structure ChannelState where
  last_update : Nat
  version : Int
  id : PyData
  name : PyData
  access_mode : PyData
  attributes : Option AttrState
  logs : LogContainer

/-- A freshly constructed `LogosChannel()` before any snapshot: `__id` and
`__name` are `None`, `__access_mode` is `NO_PERMISSION`, `__attributes` is
`None` and `__logs` an empty container built by `LogosLogContainer()`. -/
def ChannelState.fresh : ChannelState :=
  ⟨0, 0, PyData.none, PyData.none, PyData.int LogosPermissionTypes.NO_PERMISSION,
   Option.none, ⟨[], false⟩⟩

/-- Embeds `LogosChannel.on_data_received`, inlining its
`super().on_data_received` chain in statement order:
`LogosUpdateable` bookkeeping; `LogosFlowObject`'s
`check_data(data, ['id', 'name', 'access_mode', 'attributes'])` and field
assignments ending with `self.__attributes = LogosAttributes(data['attributes'])`
(whose constructor may itself raise, leaving `__attributes` unassigned);
then the channel's own `check_data(data, [..., 'logs'])` and
`self.__logs = LogosLogContainer(data['logs'])` (whose constructor raises
`NameError` on any nonempty logs dict, leaving `__logs` unassigned). -/
def ChannelState.on_data_received (t : Nat) (data : PyData) (v : Int) (s : ChannelState) :
    Option PyErr × ChannelState :=
  let s1 := { s with last_update := t, version := v }
  match data with
  | PyData.dict entries =>
    match dictLookupStr entries "id", dictLookupStr entries "name",
          dictLookupStr entries "access_mode", dictLookupStr entries "attributes" with
    | some idv, some namev, some amv, some attrv =>
      let s2 := { s1 with id := idv, name := namev, access_mode := amv }
      match LogosAttributes.from_data t (some attrv) 0 with
      | (some e, _) => (some e, s2)
      | (Option.none, a) =>
        let s3 := { s2 with attributes := some a }
        match dictLookupStr entries "logs" with
        | Option.none => (some PyErr.serializationError, s3)
        | some logsv =>
          match LogContainer.init logsv with
          | (some e, _) => (some e, s3)
          | (Option.none, c) => (Option.none, { s3 with logs := c })
    | _, _, _, _ => (some PyErr.serializationError, s1)
  | _ => (some PyErr.serializationError, s1)

/-- State of `flow.LogosLogEntry`: the `LogosLocallyCangeable` bookkeeping
plus `__id_time`, `__id_user`, `__access_mode`, `__content`,
`__attributes`, `__attachments` and `__is_finished`. -/
structure LogEntryState where
  last_update : Nat
  version : Int
  is_changed : Bool
  id_time : Nat
  id_user : String
  access_mode : Int
  content : String
  attributes : EAState
  attachments : Option Unit
  is_finished : Bool

/-- A freshly constructed `LogosLogEntry()` before any snapshot or
creation. -/
def LogEntryState.fresh : LogEntryState :=
  ⟨0, 0, false, 0, "", LogosPermissionTypes.NO_PERMISSION, "", EAState.fresh,
   Option.none, false⟩

/-- Embeds the `LogosLogEntry.id` property:
`'{}-{}'.format(self.__id_time, self.__id_user)`. -/
def LogEntryState.id (s : LogEntryState) : String :=
  toString s.id_time ++ "-" ++ s.id_user

/-- Embeds `LogosLogEntry.on_create` exactly as written. Its first statement
is `if super().is_ready():` — but `is_ready` is a property
(`datamodel.LogosUpdateable.is_ready`), so `super().is_ready` already IS the
`bool` value and applying `()` to it raises `TypeError: 'bool' object is not
callable` on every call, before any field is assigned. The creation-time
clock `t` and `CurrentUser.get_id()` value `uid` are therefore never used. -/
def LogEntryState.on_create (t : Nat) (uid : String) (s : LogEntryState) :
    Option PyErr × LogEntryState :=
  let _ := t
  let _ := uid
  (some PyErr.typeError, s)

/-- Class-level state of the `texts.Texts` singleton: `__content` (language
→ key → text catalogs), `__default_value` and the session `__language`.
`__DEFAULT_LANGUAGE` is the class constant `'en'`. -/
structure TextsState where
  content : List (String × List (String × String))
  default_value : String
  language : String
deriving DecidableEq, Repr

/-- Association lookup used for the dict accesses in `texts.py`
(`language in cls.__content.keys()` / `cls.__content[language]`). -/
def assocStr {α : Type} : List (String × α) → String → Option α
  | [], _ => Option.none
  | (k, v) :: rest, key => if k = key then some v else assocStr rest key

/-- The `Texts.__DEFAULT_LANGUAGE` class constant. -/
def Texts.DEFAULT_LANGUAGE : String := "en"

/-- Embeds `Texts.get` exactly as written: start from the default value,
replace the empty language by the session language, then `if language in
content` look the key up there — and only `elif` (when the requested
language has NO catalog at all) look it up in the `'en'` catalog. -/
def Texts.get (st : TextsState) (key : String) (language : String) : String :=
  let lang := if language = "" then st.language else language
  match assocStr st.content lang with
  | some cat =>
      match assocStr cat key with
      | some v => v
      | Option.none => st.default_value
  | Option.none =>
      match assocStr st.content Texts.DEFAULT_LANGUAGE with
      | some cat =>
          match assocStr cat key with
          | some v => v
          | Option.none => st.default_value
      | Option.none => st.default_value

/-- Embeds `Texts.exists` with the same branch structure (`strict` checks
only the requested/session language; non-strict adds the same `elif`
fallback as `Texts.get`). -/
def Texts.exists (st : TextsState) (key : String) (language : String)
    (strict : Bool) : Bool :=
  let lang := if language = "" then st.language else language
  if strict then
    match assocStr st.content lang with
    | some cat => (assocStr cat key).isSome
    | Option.none => false
  else
    match assocStr st.content lang with
    | some cat => (assocStr cat key).isSome
    | Option.none =>
        match assocStr st.content Texts.DEFAULT_LANGUAGE with
        | some cat => (assocStr cat key).isSome
        | Option.none => false

/-- Embeds `functiontools.get_package_template` (all four branches): the
full/micro request/response envelope templates. -/
def get_package_template (is_response : Bool) (is_micro : Bool) : PyData :=
  if !is_micro then
    if !is_response then
      PyData.dict
        [(PyData.str "PackageType", PyData.str "Logos"),
         (PyData.str "PackageVersion",
          PyData.list [PyData.int 0, PyData.int 0, PyData.int 1, PyData.str "dev"]),
         (PyData.str "PackageID", PyData.str ""),
         (PyData.str "Operation", PyData.str ""),
         (PyData.str "Content", PyData.bytes [])]
    else
      PyData.dict
        [(PyData.str "PackageType", PyData.str "Logos_response"),
         (PyData.str "PackageVersion",
          PyData.list [PyData.int 0, PyData.int 0, PyData.int 1, PyData.str "dev"]),
         (PyData.str "PackageID", PyData.str ""),
         (PyData.str "PackageHash", PyData.bytes []),
         (PyData.str "QueryInterval", PyData.list [PyData.int 0, PyData.int 100])]
  else
    if !is_response then
      PyData.list [PyData.str "", PyData.str "", PyData.bytes []]
    else
      PyData.list [PyData.str "", PyData.bytes [], PyData.list [PyData.int 0, PyData.int 100]]

/-- Set a string key on a Python dict value (`package['PackageID'] = ...`);
a non-dict value is returned unchanged (never hit by `Client.send`). -/
def pyDictSet (d : PyData) (key : String) (v : PyData) : PyData :=
  match d with
  | PyData.dict entries => PyData.dict (dictSetStr entries key v)
  | other => other

/-- Embeds `networking.Client.send`: build a request envelope from
`get_package_template()` (defaults: full request form), fill `PackageID`,
`Operation` and `Content`, and `put` it on `cls.__package_queue`. The class
attribute is `Queue()` — created with NO `maxsize`, hence infinite capacity —
so `put` appends unconditionally and never blocks or rejects. The queue is
modelled by its list of queued packages in FIFO order. -/
def Client.send (package_id : String) (operation : String) (content : List Nat)
    (queue : List PyData) : List PyData :=
  let package :=
    pyDictSet
      (pyDictSet
        (pyDictSet (get_package_template false false) "PackageID" (PyData.str package_id))
        "Operation" (PyData.str operation))
      "Content" (PyData.bytes content)
  queue ++ [package]

/-- Iterate `Client.send` a number of times (distinct packages are not
needed to reason about the queue length). -/
def Client.sendN : Nat → List PyData → List PyData
  | 0, q => q
  | n + 1, q => Client.sendN n (Client.send "P" "op" [] q)

/-- An RSA public key as used by `functiontools.encrypt_rsa`.

Modelled from the spec: the `rsa` package (external to this repository)
implements the keys and primitives; §4.6 specifies "asymmetric keypair
generation … `encrypt(publicKey, bytes)->bytes` / `decrypt(privateKey,
bytes)->bytes`". A key is its modulus `n = p*q` and public exponent `e`;
the byte content is modelled by its numeric value below the modulus ("within
the key's size limit"). -/
structure RSAPublicKey where
  n : Nat
  e : Nat
deriving DecidableEq, Repr

/-- An RSA private key as used by `functiontools.decrypt_rsa`.

Modelled from the spec (see `RSAPublicKey`): modulus `n` and private
exponent `d`. -/
structure RSAPrivateKey where
  n : Nat
  d : Nat
deriving DecidableEq, Repr

/-- Embeds `functiontools.encrypt_rsa`.

Modelled from the spec: `rsa.encrypt` is external; textbook RSA encryption
`c = m ^ e mod n`. -/
def encrypt_rsa (data : Nat) (public_key : RSAPublicKey) : Nat :=
  data ^ public_key.e % public_key.n

/-- Embeds `functiontools.decrypt_rsa`.

Modelled from the spec: `rsa.decrypt` is external; textbook RSA decryption
`m = c ^ d mod n`. -/
def decrypt_rsa (data : Nat) (private_key : RSAPrivateKey) : Nat :=
  data ^ private_key.d % private_key.n

/-- Embeds `functiontools.generate_rsa_keys`.

Modelled from the spec: `rsa.newkeys(strength)` is external; it returns a
matching keypair, i.e. distinct primes `p, q` and exponents `e, d` with
`e * d ≡ 1 (mod (p-1)*(q-1))` packaged as `{'public_key': (n, e),
'private_key': (n, d)}` with `n = p * q`. The arithmetic facts about the
generated values appear as hypotheses of the round-trip theorem. -/
def generate_rsa_keys (p q e d : Nat) : RSAPublicKey × RSAPrivateKey :=
  (⟨p * q, e⟩, ⟨p * q, d⟩)

/-- Decimal digit to character (used by the modelled key text format). -/
def digitChar (d : Nat) : Char := Char.ofNat (48 + d)

/-- Character back to decimal digit. -/
def charDigit (c : Char) : Nat := c.toNat - 48

/-- Big-endian decimal character representation of a natural number. -/
def natToChars (n : Nat) : List Char := (Nat.digits 10 n).reverse.map digitChar

/-- Decimal string of a natural number. -/
def natToStr (n : Nat) : String := String.mk (natToChars n)

/-- Parse a big-endian decimal character list back to a natural number. -/
def charsToNat (l : List Char) : Nat := Nat.ofDigits 10 ((l.map charDigit).reverse)

/-- Split a character list at the first `':'`. -/
def splitAtColon : List Char → List Char × List Char
  | [] => ([], [])
  | c :: rest =>
      if c = ':' then ([], rest)
      else (c :: (splitAtColon rest).1, (splitAtColon rest).2)

/-- Embeds `functiontools.rsa_key_to_str` at public-key type.

Modelled from the spec: `save_pkcs1` is external; §4.6 requires "key
(de)serialization to a portable text key format". The modelled text format
is the decimal modulus and exponent separated by `':'`. -/
def rsa_public_key_to_str (key_data : RSAPublicKey) : String :=
  natToStr key_data.n ++ ":" ++ natToStr key_data.e

/-- Embeds `functiontools.rsa_key_to_str` at private-key type (modelled from
the spec, see `rsa_public_key_to_str`). -/
def rsa_private_key_to_str (key_data : RSAPrivateKey) : String :=
  natToStr key_data.n ++ ":" ++ natToStr key_data.d

/-- Embeds `functiontools.rsa_str_to_public_key`.

Modelled from the spec: `load_pkcs1` is external; parses the modelled text
key format back into a public key. -/
def rsa_str_to_public_key (key_str : String) : RSAPublicKey :=
  ⟨charsToNat (splitAtColon key_str.data).1, charsToNat (splitAtColon key_str.data).2⟩

/-- Embeds `functiontools.rsa_str_to_private_key` (modelled from the spec,
see `rsa_str_to_public_key`). -/
def rsa_str_to_private_key (key_str : String) : RSAPrivateKey :=
  ⟨charsToNat (splitAtColon key_str.data).1, charsToNat (splitAtColon key_str.data).2⟩

theorem charDigit_digitChar (d : Nat) (h : d < 10) : charDigit (digitChar d) = d := by
  interval_cases d <;> rfl

theorem digitChar_ne_colon (d : Nat) (h : d < 10) : digitChar d ≠ ':' := by
  interval_cases d <;> decide

theorem charsToNat_natToChars (n : Nat) : charsToNat (natToChars n) = n := by
  unfold charsToNat natToChars
  rw [List.map_map]
  have hmap : (Nat.digits 10 n).reverse.map (charDigit ∘ digitChar) =
      (Nat.digits 10 n).reverse.map id := by
    apply List.map_congr_left
    intro a ha
    exact charDigit_digitChar a
      (Nat.digits_lt_base (by norm_num) (List.mem_reverse.mp ha))
  rw [hmap, List.map_id, List.reverse_reverse, Nat.ofDigits_digits]

theorem splitAtColon_append (l1 l2 : List Char) (h : ∀ c ∈ l1, c ≠ ':') :
    splitAtColon (l1 ++ ':' :: l2) = (l1, l2) := by
  induction l1 with
  | nil => simp [splitAtColon]
  | cons c rest ih =>
      have hc : c ≠ ':' := h c (List.mem_cons_self c rest)
      have hrest : ∀ x ∈ rest, x ≠ ':' := fun x hx => h x (List.mem_cons_of_mem c hx)
      simp [splitAtColon, hc, ih hrest]

theorem natToChars_ne_colon (n : Nat) : ∀ c ∈ natToChars n, c ≠ ':' := by
  intro c hc
  obtain ⟨d, hd, rfl⟩ := List.mem_map.mp hc
  exact digitChar_ne_colon d
    (Nat.digits_lt_base (by norm_num) (List.mem_reverse.mp hd))

theorem rsa_public_key_roundtrip (k : RSAPublicKey) :
    rsa_str_to_public_key (rsa_public_key_to_str k) = k := by
  have hdata : (rsa_public_key_to_str k).data = natToChars k.n ++ ':' :: natToChars k.e := by
    show (natToStr k.n ++ ":" ++ natToStr k.e).data = _
    rw [String.data_append, String.data_append,
        show (":".data) = [':'] from rfl,
        show (natToStr k.n).data = natToChars k.n from rfl,
        show (natToStr k.e).data = natToChars k.e from rfl,
        List.append_assoc, List.singleton_append]
  unfold rsa_str_to_public_key
  rw [hdata, splitAtColon_append _ _ (natToChars_ne_colon k.n)]
  simp [charsToNat_natToChars]

theorem rsa_private_key_roundtrip (k : RSAPrivateKey) :
    rsa_str_to_private_key (rsa_private_key_to_str k) = k := by
  have hdata : (rsa_private_key_to_str k).data = natToChars k.n ++ ':' :: natToChars k.d := by
    show (natToStr k.n ++ ":" ++ natToStr k.d).data = _
    rw [String.data_append, String.data_append,
        show (":".data) = [':'] from rfl,
        show (natToStr k.n).data = natToChars k.n from rfl,
        show (natToStr k.d).data = natToChars k.d from rfl,
        List.append_assoc, List.singleton_append]
  unfold rsa_str_to_private_key
  rw [hdata, splitAtColon_append _ _ (natToChars_ne_colon k.n)]
  simp [charsToNat_natToChars]

theorem pow_fermat_cycle (p : Nat) (hp : p.Prime) (m j : Nat) :
    m ^ (1 + j * (p - 1)) ≡ m [MOD p] := by
  by_cases hdvd : p ∣ m
  · have h1 : m ≡ 0 [MOD p] := Nat.modEq_zero_iff_dvd.mpr hdvd
    have h2 : m ^ (1 + j * (p - 1)) ≡ 0 [MOD p] :=
      Nat.modEq_zero_iff_dvd.mpr (dvd_pow hdvd (by omega))
    exact h2.trans h1.symm
  · have hco : m.Coprime p := Nat.coprime_comm.mp (hp.coprime_iff_not_dvd.mpr hdvd)
    have hfer : m ^ (p - 1) ≡ 1 [MOD p] := by
      have h := Nat.ModEq.pow_totient hco
      rwa [Nat.totient_prime hp] at h
    calc m ^ (1 + j * (p - 1)) = m * (m ^ (p - 1)) ^ j := by ring
    _ ≡ m * 1 ^ j [MOD p] := Nat.ModEq.mul_left m (hfer.pow j)
    _ = m := by ring

theorem rsa_core (p q e d m : Nat) (hp : p.Prime) (hq : q.Prime) (hpq : p ≠ q)
    (hed1 : 1 ≤ e * d) (hmod : e * d ≡ 1 [MOD (p - 1) * (q - 1)]) (hm : m < p * q) :
    (m ^ e % (p * q)) ^ d % (p * q) = m := by
  obtain ⟨c, hc⟩ := (Nat.modEq_iff_dvd' hed1).mp hmod.symm
  have hc2 : e * d - 1 = c * ((p - 1) * (q - 1)) := by rw [hc]; ring
  have hed : e * d = 1 + c * ((p - 1) * (q - 1)) := by omega
  have hmp : m ^ (e * d) ≡ m [MOD p] := by
    have h := pow_fermat_cycle p hp m (c * (q - 1))
    have hx : 1 + c * (q - 1) * (p - 1) = 1 + c * ((p - 1) * (q - 1)) := by ring
    rw [hx, ← hed] at h
    exact h
  have hmq : m ^ (e * d) ≡ m [MOD q] := by
    have h := pow_fermat_cycle q hq m (c * (p - 1))
    have hx : 1 + c * (p - 1) * (q - 1) = 1 + c * ((p - 1) * (q - 1)) := by ring
    rw [hx, ← hed] at h
    exact h
  have hcop : p.Coprime q := (Nat.coprime_primes hp hq).mpr hpq
  have hn : m ^ (e * d) ≡ m [MOD p * q] :=
    (Nat.modEq_and_modEq_iff_modEq_mul hcop).mp ⟨hmp, hmq⟩
  have hfinal : (m ^ e % (p * q)) ^ d ≡ m [MOD p * q] := by
    calc (m ^ e % (p * q)) ^ d
        ≡ (m ^ e) ^ d [MOD p * q] := (Nat.mod_modEq (m ^ e) (p * q)).pow d
    _ = m ^ (e * d) := by rw [pow_mul]
    _ ≡ m [MOD p * q] := hn
  unfold Nat.ModEq at hfinal
  rw [hfinal, Nat.mod_eq_of_lt hm]

theorem length_client_send (package_id operation : String) (content : List Nat)
    (queue : List PyData) :
    (Client.send package_id operation content queue).length = queue.length + 1 := by
  simp [Client.send]

theorem length_client_sendN (n : Nat) (q : List PyData) :
    (Client.sendN n q).length = q.length + n := by
  induction n generalizing q with
  | zero => simp [Client.sendN]
  | succ k ih =>
      show (Client.sendN k (Client.send "P" "op" [] q)).length = q.length + (k + 1)
      rw [ih, length_client_send]
      omega

theorem applyAll_last_update_pos (l : List (Nat × Int)) (s : UpdState)
    (hl : ∀ x ∈ l, 0 < x.1) (hs : 0 < s.last_update) :
    0 < (UpdState.applyAll l s).last_update := by
  induction l generalizing s with
  | nil => simpa [UpdState.applyAll] using hs
  | cons x rest ih =>
      obtain ⟨t, v⟩ := x
      rw [UpdState.applyAll]
      exact ih (UpdState.on_data_received t v s)
        (fun y hy => hl y (List.mem_cons_of_mem _ hy))
        (hl (t, v) (List.mem_cons_self _ _))

/-- C1: for every `LogosEditableAttributes` instance (the concrete
locally-editable entity) and every snapshot dict containing the required
fields `tags` (a list) and `descriptions` (a dict), applying the snapshot
with any version `v ≥` the current version via `on_data_received` succeeds
and leaves `is_changed = false`, `version = v`, and a `last_update` that is
strictly positive and not less than its previous value — under the wall
clock facts `0 < now()` and `previous last_update ≤ now()`. -/
theorem claim1_snapshot_success
    (s : EAState) (entries : List (PyData × PyData)) (tl : List PyData)
    (dl : List (PyData × PyData)) (v : Int) (t : Nat)
    (htags : dictLookupStr entries "tags" = some (PyData.list tl))
    (hdescs : dictLookupStr entries "descriptions" = some (PyData.dict dl))
    (hver : s.version ≤ v) (ht : 0 < t) (hclock : s.last_update ≤ t) :
    (EAState.on_data_received t (PyData.dict entries) v s).1 = Option.none ∧
    (EAState.on_data_received t (PyData.dict entries) v s).2.is_changed = false ∧
    (EAState.on_data_received t (PyData.dict entries) v s).2.version = v ∧
    0 < (EAState.on_data_received t (PyData.dict entries) v s).2.last_update ∧
    s.last_update ≤ (EAState.on_data_received t (PyData.dict entries) v s).2.last_update := by
  have heq : EAState.on_data_received t (PyData.dict entries) v s =
      (Option.none,
        { s with
            last_update := t, version := v, is_changed := false,
            tags := PyData.list tl, descriptions := PyData.dict dl }) := by
    dsimp only [EAState.on_data_received]
    rw [htags, hdescs]
    rfl
  rw [heq]
  exact ⟨rfl, rfl, rfl, ht, hclock⟩

/-- C1 witness: a concrete dirty attribute set at version 1 and timestamp 5
receives `{'tags': [2], 'descriptions': {}}` with version 2 at clock 10. -/
theorem claim1_snapshot_success_witness :
    (EAState.on_data_received 10
      (PyData.dict [(PyData.str "tags", PyData.list [PyData.int 2]),
                    (PyData.str "descriptions", PyData.dict [])]) 2
      ⟨5, 1, true, PyData.list [], PyData.dict []⟩).1 = Option.none ∧
    (EAState.on_data_received 10
      (PyData.dict [(PyData.str "tags", PyData.list [PyData.int 2]),
                    (PyData.str "descriptions", PyData.dict [])]) 2
      ⟨5, 1, true, PyData.list [], PyData.dict []⟩).2.is_changed = false ∧
    (EAState.on_data_received 10
      (PyData.dict [(PyData.str "tags", PyData.list [PyData.int 2]),
                    (PyData.str "descriptions", PyData.dict [])]) 2
      ⟨5, 1, true, PyData.list [], PyData.dict []⟩).2.version = 2 ∧
    0 < (EAState.on_data_received 10
      (PyData.dict [(PyData.str "tags", PyData.list [PyData.int 2]),
                    (PyData.str "descriptions", PyData.dict [])]) 2
      ⟨5, 1, true, PyData.list [], PyData.dict []⟩).2.last_update ∧
    (5 : Nat) ≤ (EAState.on_data_received 10
      (PyData.dict [(PyData.str "tags", PyData.list [PyData.int 2]),
                    (PyData.str "descriptions", PyData.dict [])]) 2
      ⟨5, 1, true, PyData.list [], PyData.dict []⟩).2.last_update :=
  claim1_snapshot_success ⟨5, 1, true, PyData.list [], PyData.dict []⟩
    [(PyData.str "tags", PyData.list [PyData.int 2]),
     (PyData.str "descriptions", PyData.dict [])]
    [PyData.int 2] [] 2 10 rfl rfl (by decide) (by decide) (by decide)

/-- C2 counterexample: the claim says a failed snapshot application leaves
every observable field — including `version` and `last_update` — unchanged.
Applying the non-dict snapshot `0` with version 7 at clock 10 to an entity
at version 3, timestamp 5, raises the serialization error but has already
overwritten `version` (3 → 7) and `last_update` (5 → 10). -/
theorem claim2_atomicity_counterexample :
    (EAState.on_data_received 10 (PyData.int 0) 7
      ⟨5, 3, true, PyData.list [], PyData.dict []⟩).1 = some PyErr.serializationError ∧
    ¬ (EAState.on_data_received 10 (PyData.int 0) 7
      ⟨5, 3, true, PyData.list [], PyData.dict []⟩).2.version = 3 ∧
    ¬ (EAState.on_data_received 10 (PyData.int 0) 7
      ⟨5, 3, true, PyData.list [], PyData.dict []⟩).2.last_update = 5 := by
  refine ⟨rfl, ?_, ?_⟩ <;> decide

/-- C2 amended: on invalid snapshot input (not a dict, or missing a required
field — i.e. `check_data` fails) `on_data_received` raises the serialization
error and leaves the content fields (`tags`, `descriptions`) unchanged, but
the bookkeeping is already mutated: `last_update` is set to `now()`,
`version` to the version argument, and `is_changed` is cleared, because the
`super().on_data_received` call precedes validation. -/
theorem claim2_invalid_snapshot_partial_mutation
    (s : EAState) (data : PyData) (v : Int) (t : Nat)
    (hbad : check_data data ["tags", "descriptions"] = some PyErr.serializationError) :
    EAState.on_data_received t data v s =
      (some PyErr.serializationError,
       { s with last_update := t, version := v, is_changed := false }) := by
  cases data with
  | dict entries =>
      rcases h1 : dictLookupStr entries "tags" with _ | tv
      · dsimp only [EAState.on_data_received]
        rw [h1]
      · rcases h2 : dictLookupStr entries "descriptions" with _ | dv
        · dsimp only [EAState.on_data_received]
          rw [h1, h2]
        · exfalso
          simp [check_data, h1, h2] at hbad
  | int n => rfl
  | str a => rfl
  | bool b => rfl
  | bytes bs => rfl
  | list xs => rfl
  | none => rfl

/-- C2 witness: the amended behaviour at the counterexample's input. -/
theorem claim2_partial_mutation_witness :
    EAState.on_data_received 10 (PyData.int 0) 7
      ⟨5, 3, true, PyData.list [], PyData.dict []⟩ =
    (some PyErr.serializationError, ⟨10, 7, false, PyData.list [], PyData.dict []⟩) :=
  claim2_invalid_snapshot_partial_mutation
    ⟨5, 3, true, PyData.list [], PyData.dict []⟩ (PyData.int 0) 7 10 rfl

/-- C3: with the Tags registry holding ids `[1, 2, 3]`, `add_tag` on an
editable attribute set behaves as follows. An unregistered id (5) raises the
permission error and leaves the set unchanged; an already-present id (2)
raises `ValueError` and leaves the set unchanged — these two parts of the
claim hold. The success path, however, appends the new tag and then raises
`AttributeError` (the source calls the nonexistent `super().om_update()`
instead of `on_update`), so the call does not succeed and `is_changed`
remains `false`, contradicting the claim's third part. -/
theorem claim3_add_tag_behaviour :
    EAState.add_tag ⟨1, 1, [1, 2, 3]⟩ 5 EAState.fresh =
      (some PyErr.permissionError, EAState.fresh) ∧
    EAState.add_tag ⟨1, 1, [1, 2, 3]⟩ 2
        { EAState.fresh with tags := PyData.list [PyData.int 2] } =
      (some PyErr.valueError,
       { EAState.fresh with tags := PyData.list [PyData.int 2] }) ∧
    EAState.add_tag ⟨1, 1, [1, 2, 3]⟩ 2 EAState.fresh =
      (some PyErr.attributeError,
       { EAState.fresh with tags := PyData.list [PyData.int 2] }) ∧
    (EAState.add_tag ⟨1, 1, [1, 2, 3]⟩ 2 EAState.fresh).2.is_changed = false :=
  ⟨rfl, rfl, rfl, rfl⟩

/-- C4: the claim says the first `on_create` on a fresh `LogosLogEntry`
(current user `"U7"`, creation time 1000) succeeds with compound id
`"1000-U7"` and access mode `READ + WRITE = 3`. In the source, `on_create`'s
first statement calls `super().is_ready()`, but `is_ready` is a property, so
a `bool` gets called and every invocation — first or second — raises
`TypeError` before mutating anything: the id stays `"0-"` and the access
mode stays `NO_PERMISSION`. -/
theorem claim4_on_create_type_error :
    LogEntryState.on_create 1000 "U7" LogEntryState.fresh =
      (some PyErr.typeError, LogEntryState.fresh) ∧
    (LogEntryState.on_create 1000 "U7"
      (LogEntryState.on_create 1000 "U7" LogEntryState.fresh).2).1 = some PyErr.typeError ∧
    LogEntryState.fresh.id = "0-" ∧
    ¬ LogEntryState.fresh.id = "1000-U7" ∧
    ¬ LogEntryState.fresh.access_mode =
        LogosPermissionTypes.READ + LogosPermissionTypes.WRITE := by
  refine ⟨rfl, rfl, by decide, by decide, by decide⟩

/-- C5: the claim says a Channel built from a snapshot whose `logs` field is
the nonempty dict `{'L1': {...}}` constructs successfully. In the source,
`LogosLogContainer.__init__` evaluates `Log(value)` — an undefined name (the
class is `LogosLog`) — so the construction raises `NameError` and the
channel's `__logs` keeps its prior (empty) container; only the
post-construction immutability half of the claim holds: `__setitem__` on an
initialised container raises the permission error and stores nothing. -/
theorem claim5_channel_logs_name_error :
    ChannelState.on_data_received 7
      (PyData.dict
        [(PyData.str "id", PyData.str "C1"),
         (PyData.str "name", PyData.str "chan"),
         (PyData.str "access_mode", PyData.int 3),
         (PyData.str "attributes",
          PyData.dict [(PyData.str "tags", PyData.list []),
                       (PyData.str "descriptions", PyData.dict [])]),
         (PyData.str "logs", PyData.dict [(PyData.str "L1", PyData.dict [])])])
      1 ChannelState.fresh =
      (some PyErr.nameError,
       ⟨7, 1, PyData.str "C1", PyData.str "chan", PyData.int 3,
        some ⟨7, 0, PyData.list [], PyData.dict []⟩, ⟨[], false⟩⟩) ∧
    LogContainer.init (PyData.dict []) = (Option.none, ⟨[], false⟩) ∧
    LogContainer.setitem (PyData.str "L2") (PyData.dict []) ⟨[], false⟩ =
      (some PyErr.permissionError, ⟨[], false⟩) :=
  ⟨rfl, rfl, rfl⟩

/-- C6 counterexample: the claim says the outbound queue never exceeds 100
packages and the 101st unacknowledged send blocks or is rejected. Starting
from the empty queue, 101 consecutive `Client.send` calls all succeed and
leave 101 packages queued. -/
theorem claim6_queue_counterexample :
    (Client.sendN 101 []).length = 101 ∧ ¬ (Client.sendN 101 []).length ≤ 100 := by
  have h := length_client_sendN 101 []
  simp only [List.length_nil, Nat.zero_add] at h
  exact ⟨h, by omega⟩

/-- C6 amended: the outbound queue of `networking.Client` is unbounded
(`Queue()` with no `maxsize`): every `send` returns immediately, appending
exactly one request package — carrying the given `PackageID`, `Operation`
and `Content` — to the back of the queue; nothing blocks, is rejected, or is
discarded, and the queue grows without limit. -/
theorem claim6_send_always_enqueues (package_id operation : String)
    (content : List Nat) (queue : List PyData) :
    (Client.send package_id operation content queue).length = queue.length + 1 ∧
    ∃ entries,
      Client.send package_id operation content queue = queue ++ [PyData.dict entries] ∧
      dictLookupStr entries "PackageID" = some (PyData.str package_id) ∧
      dictLookupStr entries "Operation" = some (PyData.str operation) ∧
      dictLookupStr entries "Content" = some (PyData.bytes content) := by
  refine ⟨length_client_send package_id operation content queue, ?_⟩
  exact
    ⟨[(PyData.str "PackageType", PyData.str "Logos"),
      (PyData.str "PackageVersion",
       PyData.list [PyData.int 0, PyData.int 0, PyData.int 1, PyData.str "dev"]),
      (PyData.str "PackageID", PyData.str package_id),
      (PyData.str "Operation", PyData.str operation),
      (PyData.str "Content", PyData.bytes content)],
     rfl, rfl, rfl, rfl⟩

/-- C7: for every keypair produced by key generation (distinct primes `p`,
`q`, exponents with `e * d ≡ 1 (mod (p-1)*(q-1))`) and every content below
the modulus, `decrypt_rsa (encrypt_rsa content pub) priv = content`; and the
same round-trip still holds after serializing both keys to their text form
and deserializing them back. -/
theorem claim7_rsa_roundtrip (p q e d m : Nat)
    (hp : p.Prime) (hq : q.Prime) (hpq : p ≠ q) (hed1 : 1 ≤ e * d)
    (hmod : e * d ≡ 1 [MOD (p - 1) * (q - 1)]) (hm : m < p * q) :
    decrypt_rsa (encrypt_rsa m (generate_rsa_keys p q e d).1)
      (generate_rsa_keys p q e d).2 = m ∧
    decrypt_rsa
      (encrypt_rsa m
        (rsa_str_to_public_key (rsa_public_key_to_str (generate_rsa_keys p q e d).1)))
      (rsa_str_to_private_key (rsa_private_key_to_str (generate_rsa_keys p q e d).2)) = m := by
  have hcore : decrypt_rsa (encrypt_rsa m (generate_rsa_keys p q e d).1)
      (generate_rsa_keys p q e d).2 = m := by
    show (m ^ e % (p * q)) ^ d % (p * q) = m
    exact rsa_core p q e d m hp hq hpq hed1 hmod hm
  refine ⟨hcore, ?_⟩
  rw [rsa_public_key_roundtrip, rsa_private_key_roundtrip]
  exact hcore

/-- C7 witness: the keypair from `p = 3`, `q = 5`, `e = d = 3`
(`9 ≡ 1 (mod 8)`) and content `7 < 15`. -/
theorem claim7_rsa_roundtrip_witness :
    decrypt_rsa (encrypt_rsa 7 (generate_rsa_keys 3 5 3 3).1)
      (generate_rsa_keys 3 5 3 3).2 = 7 ∧
    decrypt_rsa
      (encrypt_rsa 7
        (rsa_str_to_public_key (rsa_public_key_to_str (generate_rsa_keys 3 5 3 3).1)))
      (rsa_str_to_private_key (rsa_private_key_to_str (generate_rsa_keys 3 5 3 3).2)) = 7 :=
  claim7_rsa_roundtrip 3 5 3 3 7 (by norm_num) (by norm_num) (by decide)
    (by decide) (by decide) (by decide)

/-- C8 counterexample: the claim says the readiness flag equals
`version > 0`. Receiving a snapshot carrying version 0 at clock 5 makes the
entity ready (`is_ready = true`) while its version is not positive, because
the source computes readiness from `last_update > 0`. -/
theorem claim8_ready_counterexample :
    (UpdState.on_data_received 5 0 UpdState.fresh).is_ready = true ∧
    ¬ 0 < (UpdState.on_data_received 5 0 UpdState.fresh).version := by
  decide

/-- C8 amended: readiness equals `last_update > 0`, not `version > 0`: a
freshly created entity is not ready, and after any sequence of snapshot
applications (each at a positive wall-clock timestamp) the entity is ready
if and only if at least one snapshot has been applied — regardless of the
versions the snapshots carried. -/
theorem claim8_ready_iff_snapshot_applied (l : List (Nat × Int))
    (hl : ∀ x ∈ l, 0 < x.1) :
    (UpdState.applyAll l UpdState.fresh).is_ready = true ↔ l ≠ [] := by
  cases l with
  | nil => simp [UpdState.applyAll, UpdState.is_ready, UpdState.fresh]
  | cons x rest =>
      obtain ⟨t, v⟩ := x
      constructor
      · intro _
        exact List.cons_ne_nil _ _
      · intro _
        rw [UpdState.applyAll]
        have hpos :
            0 < (UpdState.applyAll rest (UpdState.on_data_received t v UpdState.fresh)).last_update :=
          applyAll_last_update_pos rest (UpdState.on_data_received t v UpdState.fresh)
            (fun y hy => hl y (List.mem_cons_of_mem _ hy))
            (hl (t, v) (List.mem_cons_self _ _))
        simpa [UpdState.is_ready] using hpos

/-- C8 witness: one snapshot at clock 5 with version 1. -/
theorem claim8_ready_iff_snapshot_applied_witness :
    (UpdState.applyAll [(5, 1)] UpdState.fresh).is_ready = true ↔
      ([(5, 1)] : List (Nat × Int)) ≠ [] :=
  claim8_ready_iff_snapshot_applied [(5, 1)] (by decide)

/-- C9: the claim (and `Texts.get`'s own docstring) says permissive lookup
falls back to the default language `'en'` whenever the key is missing under
the requested language. With catalogs `{'de': {}, 'en': {'k': 'v'}}` and
default value `'D'`, `Texts.get('k', 'de')` returns `'D'` — not the `'en'`
value `'v'` — because the source's `elif` only consults `'en'` when the
requested language has no catalog at all; the key-present case does return
the requested language's value. -/
theorem claim9_default_language_fallback_skipped :
    Texts.get ⟨[("de", []), ("en", [("k", "v")])], "D", "en"⟩ "k" "de" = "D" ∧
    assocStr [("de", ([] : List (String × String))), ("en", [("k", "v")])] "en" =
      some [("k", "v")] ∧
    Texts.get ⟨[("de", []), ("en", [("k", "v")])], "D", "en"⟩ "k" "en" = "v" ∧
    ¬ ("D" : String) = "v" :=
  ⟨rfl, rfl, rfl, by decide⟩

/-- C10: for every non-negative `panel` and every power-of-two switch
`2 ^ k`, `check_switch panel (2 ^ k)` is exactly the bitmask membership test
`Nat.testBit panel k` used for the access-mode grants. -/
theorem claim10_check_switch_is_testbit (panel : Int) (k : Nat) (hp : 0 ≤ panel) :
    check_switch panel (2 ^ k) = panel.toNat.testBit k := by
  obtain ⟨n, rfl⟩ := Int.eq_ofNat_of_zero_le hp
  rw [check_switch, Nat.testBit_to_div_mod, Int.toNat_natCast]
  have hpow : (0 : Int) ≤ 2 ^ k := by positivity
  rw [Int.fdiv_eq_ediv _ hpow]
  rw [Int.fmod_eq_emod _ (by norm_num)]
  have key : ((n : Int) / (2 : Int) ^ k) % 2 = ((n / 2 ^ k % 2 : Nat) : Int) := by
    push_cast
    rfl
  rw [key]
  by_cases h : n / 2 ^ k % 2 = 1
  · simp [h]
  · simp [h]
    omega

/-- C10 witness: `panel = 5 = 0b101`, switch `2 ^ 2 = 4`. -/
theorem claim10_check_switch_is_testbit_witness :
    check_switch 5 (2 ^ 2) = Nat.testBit 5 2 :=
  claim10_check_switch_is_testbit 5 2 (by decide)
